import Mathlib

/-!
Verification development for the Chauka visualization repository.

The repository has two source components:
* a scatter-plot timeline (`ExtinctSpeciesViz`, with `getYearPosition` and the
  `loadData` record/timeline builders), and
* an interactive star globe (`InteractiveStarGlobe`, with `bvToColor`,
  `loadStars`, `createStarField`, `init`, `animate` and the effect cleanup).

JavaScript numbers are modelled as exact rationals together with NaN.
IEEE-754 rounding and infinities are not modelled: every arithmetic operation
appearing in the modelled code either propagates NaN or is exact on the values
the claims exercise, the only divisions are by the nonzero constants
(2200 - 1400), 180, 255 and maxMagnitude = 6.7 (so the Infinity-producing
division by zero is unreachable), and no other operation can produce an
infinity from finite operands.  The transcendental library functions
(Math.cos, Math.sin, Math.pow and the constant Math.PI) are modelled as
abstract parameters, bundled in `FloatOps`; NaN propagation around them is
explicit.

The Batteries rational-number operations are marked irreducible, which only
blocks the elaborator's evaluation (the kernel ignores reducibility); the
attribute line below restores plain evaluation so that concrete runs of the
embedded code can be settled by `decide` and `rfl`.
-/

set_option allowUnsafeReducibility true
attribute [semireducible] Rat.add Rat.sub Rat.mul Rat.inv Rat.ofScientific

/-- A JavaScript number: an exact rational or NaN. -/
inductive JNum where
  | nan : JNum
  | num : ℚ → JNum
deriving DecidableEq

/-- JS addition; NaN propagates. -/
def JNum.add : JNum → JNum → JNum
  | num a, num b => num (a + b)
  | _, _ => nan

/-- JS subtraction; NaN propagates. -/
def JNum.sub : JNum → JNum → JNum
  | num a, num b => num (a - b)
  | _, _ => nan

/-- JS multiplication; NaN propagates. -/
def JNum.mul : JNum → JNum → JNum
  | num a, num b => num (a * b)
  | _, _ => nan

/-- JS division; NaN propagates.  Division by zero yields Infinity or NaN in
JS; every divisor in the modelled code is a nonzero constant, so that case is
unreachable and is collapsed to NaN here. -/
def JNum.div : JNum → JNum → JNum
  | num a, num b => if b = 0 then nan else num (a / b)
  | _, _ => nan

/-- JS unary minus; NaN propagates. -/
def JNum.neg : JNum → JNum
  | num a => num (-a)
  | nan => nan

instance : Add JNum := ⟨JNum.add⟩

instance : Sub JNum := ⟨JNum.sub⟩

instance : Mul JNum := ⟨JNum.mul⟩

instance : Div JNum := ⟨JNum.div⟩

instance : Neg JNum := ⟨JNum.neg⟩

instance (n : ℕ) : OfNat JNum n := ⟨JNum.num (OfNat.ofNat n)⟩

instance : OfScientific JNum := ⟨fun m b e => JNum.num (OfScientific.ofScientific m b e)⟩

/-- The JS `<` comparison: false whenever either side is NaN. -/
def JNum.lt : JNum → JNum → Bool
  | num a, num b => decide (a < b)
  | _, _ => false

/-- The JS `<=` comparison: false whenever either side is NaN. -/
def JNum.le : JNum → JNum → Bool
  | num a, num b => decide (a ≤ b)
  | _, _ => false

/-- JS Math.max; NaN if either argument is NaN. -/
def JNum.max : JNum → JNum → JNum
  | num a, num b => num (Max.max a b)
  | _, _ => nan

/-- JS Math.min; NaN if either argument is NaN. -/
def JNum.min : JNum → JNum → JNum
  | num a, num b => num (Min.min a b)
  | _, _ => nan

/-- JS Math.round: floor(x + 1/2), NaN propagates. -/
def JNum.round : JNum → JNum
  | num a => num ((⌊a + 1/2⌋ : ℤ) : ℚ)
  | nan => nan

/-- JS isNaN on an already-numeric value. -/
def JNum.isNan : JNum → Bool
  | nan => true
  | num _ => false

/-- The ambient JS math library: Math.PI and the transcendental functions, as
abstract (uninterpreted) operations on the rational carrier. -/
structure FloatOps where
  pi : ℚ
  cos : ℚ → ℚ
  sin : ℚ → ℚ
  pow : ℚ → ℚ → ℚ

/-- Math.cos lifted to JS numbers; Math.cos(NaN) = NaN. -/
def FloatOps.jcos (ops : FloatOps) : JNum → JNum
  | JNum.num a => JNum.num (ops.cos a)
  | JNum.nan => JNum.nan

/-- Math.sin lifted to JS numbers; Math.sin(NaN) = NaN. -/
def FloatOps.jsin (ops : FloatOps) : JNum → JNum
  | JNum.num a => JNum.num (ops.sin a)
  | JNum.nan => JNum.nan

/-- Math.pow lifted to JS numbers.  The base in the modelled code is always the
constant 0.75, so the JS special case pow(NaN, 0) = 1 is unreachable and NaN
arguments simply propagate. -/
def FloatOps.jpow (ops : FloatOps) : JNum → JNum → JNum
  | JNum.num a, JNum.num b => JNum.num (ops.pow a b)
  | _, _ => JNum.nan

/-- A JS value as it occurs in a fetched record: null, undefined (absent
field), a number, or a string. -/
inductive JVal where
  | vnull : JVal
  | vundef : JVal
  | vnum : JNum → JVal
  | vstr : String → JVal
deriving DecidableEq

/-- JS truthiness: null, undefined, NaN, 0 and "" are falsy. -/
def JVal.truthy : JVal → Bool
  | .vnull => false
  | .vundef => false
  | .vnum JNum.nan => false
  | .vnum (JNum.num q) => decide (q ≠ 0)
  | .vstr s => decide (s ≠ "")

/-- JS String.prototype.split with a single-character separator, on the
character list of the string: "".split(sep) is [""], and separators at the
ends produce empty fields, exactly as in JS. -/
def splitOnChar (sep : Char) : List Char → List (List Char)
  | [] => [[]]
  | c :: rest =>
    if c = sep then [] :: splitOnChar sep rest
    else
      match splitOnChar sep rest with
      | [] => [[c]]
      | h :: t => (c :: h) :: t

/-- JS String.prototype.trim: strip whitespace from both ends. -/
def jsTrim (cs : List Char) : List Char :=
  ((cs.dropWhile Char.isWhitespace).reverse.dropWhile Char.isWhitespace).reverse

/-- The natural number denoted by a list of decimal digit characters. -/
def digitsToNat (ds : List Char) : ℕ :=
  ds.foldl (fun n c => 10 * n + (c.toNat - 48)) 0

/-- The unsigned part of JS parseInt(s, 10): value of the longest leading
digit run, NaN if there is none. -/
def parseIntCore (cs : List Char) : JNum :=
  let ds := cs.takeWhile Char.isDigit
  if ds.isEmpty then JNum.nan else JNum.num (digitsToNat ds)

/-- JS parseInt(s, 10): skip leading whitespace, optional sign, then the
longest digit prefix; NaN when no digits follow the sign. -/
def jparseInt (cs : List Char) : JNum :=
  match cs.dropWhile Char.isWhitespace with
  | '-' :: rest => - parseIntCore rest
  | '+' :: rest => parseIntCore rest
  | other => parseIntCore other

/-- The unsigned part of JS parseFloat: longest prefix of the form
digits[.digits], ".digits" or "digits."; NaN when there are no digits at all.
Exponent notation and the literal "Infinity" do not occur in the star catalog
and are not modelled. -/
def parseFloatMag (cs : List Char) : JNum :=
  let intDs := cs.takeWhile Char.isDigit
  let rest := cs.drop intDs.length
  let fracDs :=
    match rest with
    | '.' :: r => r.takeWhile Char.isDigit
    | _ => []
  if intDs.isEmpty && fracDs.isEmpty then JNum.nan
  else JNum.num ((digitsToNat intDs : ℚ) + (digitsToNat fracDs : ℚ) / (10 : ℚ) ^ fracDs.length)

/-- JS parseFloat applied to a possibly missing CSV field: a missing column
destructures to undefined and parseFloat(undefined) is NaN; otherwise skip
leading whitespace, take an optional sign and the longest numeric prefix. -/
def jparseFloat : Option (List Char) → JNum
  | none => JNum.nan
  | some cs =>
    match cs.dropWhile Char.isWhitespace with
    | '-' :: rest => - parseFloatMag rest
    | '+' :: rest => parseFloatMag rest
    | other => parseFloatMag other

/-- The unsigned part of the JS Number() string conversion, which (unlike
parseFloat) requires the whole string to be numeric: digits[.digits],
".digits" or "digits.". -/
def fullNumberMag (cs : List Char) : Option ℚ :=
  let intDs := cs.takeWhile Char.isDigit
  match cs.drop intDs.length with
  | [] => if intDs.isEmpty then none else some ((digitsToNat intDs : ℚ))
  | '.' :: r =>
    let fracDs := r.takeWhile Char.isDigit
    if (r.drop fracDs.length).isEmpty && !(intDs.isEmpty && fracDs.isEmpty) then
      some ((digitsToNat intDs : ℚ) + (digitsToNat fracDs : ℚ) / (10 : ℚ) ^ fracDs.length)
    else none
  | _ => none

/-- JS Number() on a string: trim, empty trims to 0, otherwise the whole
string must be an optionally signed decimal numeral, else NaN.  (Hex and
exponent forms do not occur in the data and are not modelled.) -/
def numberOfChars (cs : List Char) : JNum :=
  match jsTrim cs with
  | [] => JNum.num 0
  | '-' :: rest =>
    match fullNumberMag rest with
    | some q => JNum.num (-q)
    | none => JNum.nan
  | '+' :: rest =>
    match fullNumberMag rest with
    | some q => JNum.num q
    | none => JNum.nan
  | other =>
    match fullNumberMag other with
    | some q => JNum.num q
    | none => JNum.nan

/-- JS Number() on a record value: Number(null) = 0, Number(undefined) = NaN,
numbers unchanged, strings via the string conversion. -/
def JVal.jsNumber : JVal → JNum
  | .vnull => JNum.num 0
  | .vundef => JNum.nan
  | .vnum n => n
  | .vstr s => numberOfChars s.toList

/-- Decimal digit characters of a natural number. -/
def natToChars (n : ℕ) : List Char := Nat.toDigits 10 n

/-- Fractional decimal digits of a rational in [0, 1), produced by repeated
multiplication by 10, bounded by the fuel. -/
def fracChars : ℕ → ℚ → List Char
  | 0, _ => []
  | fuel + 1, q =>
    if q = 0 then []
    else
      let d := (⌊q * 10⌋).toNat
      Char.ofNat (48 + d) :: fracChars fuel (q * 10 - (d : ℚ))

/-- Decimal rendering of a rational.  Exact for integers — the only numeric
values `String(row.start_year)` is applied to in the data — and truncated at
20 fractional digits otherwise, approximating JS number printing. -/
def ratToChars (q : ℚ) : List Char :=
  (if q < 0 then ['-'] else []) ++ natToChars (⌊|q|⌋).toNat ++
    (if |q| - (⌊|q|⌋ : ℚ) = 0 then [] else '.' :: fracChars 20 (|q| - (⌊|q|⌋ : ℚ)))

/-- The JS String() conversion on a record value. -/
def JVal.toJsString : JVal → List Char
  | .vnull => "null".toList
  | .vundef => "undefined".toList
  | .vnum JNum.nan => "NaN".toList
  | .vnum (JNum.num q) => ratToChars q
  | .vstr s => s.toList

/-! ## The scatter-plot timeline component (ExtinctSpeciesViz) -/

/-- STATUS_HEIGHT (line 9 of the scatter component). -/
def STATUS_HEIGHT : ℚ := 12500

/-- STATUS_WIDTH (line 10 of the scatter component). -/
def STATUS_WIDTH : ℚ := 1600

/-- getYearPosition (lines 11-13):
`((2200 - year) / (2200 - 1400)) * STATUS_HEIGHT`. -/
def getYearPosition (year : JNum) : JNum :=
  ((2200 : JNum) - year) / ((2200 : JNum) - (1400 : JNum)) * JNum.num STATUS_HEIGHT

/-- One row of the `ocean_stories` query result, with the fields `loadData`
reads.  Fields arrive from JSON, so each is null, absent, a number or a
string. -/
structure StoryRow where
  start_year : JVal
  disaster_type : String
  country : String
  summary : String
  total_affected : JVal
  total_injured : JVal
  total_homeless : JVal
  total_deaths : JVal
deriving DecidableEq

/-- One scatter point as built by the map inside `loadData` (lines 28-42).
`y` and `start_year` are null (`none`) or a JS number — possibly NaN. -/
structure ScatterPoint where
  x : JNum
  y : Option JNum
  disaster_type : String
  country : String
  start_year : Option JNum
  summary : String
  total_affected : JNum
  total_injured : JNum
  total_homeless : JNum
  total_deaths : JNum
deriving DecidableEq

/-- The `row.field ? Number(row.field) : 0` coercion of lines 37-40. -/
def numOrZero (v : JVal) : JNum :=
  if v.truthy then v.jsNumber else JNum.num 0

/-- The body of the map in `loadData` (lines 28-42).  `rand1` and `rand2` are
the two Math.random() draws of line 31.  Line 29 is
`row.start_year ? parseInt(String(row.start_year).trim(), 10) : null`. -/
def storyToPoint (rand1 rand2 : ℚ) (row : StoryRow) : ScatterPoint :=
  let year : Option JNum :=
    if row.start_year.truthy then some (jparseInt (jsTrim row.start_year.toJsString)) else none
  { x := JNum.num (rand1 * STATUS_WIDTH - STATUS_WIDTH / 2 + (rand2 - 1/2) * 100)
    y := match year with
         | some n => some (getYearPosition n)
         | none => none
    disaster_type := row.disaster_type
    country := row.country
    start_year := year
    summary := row.summary
    total_affected := numOrZero row.total_affected
    total_injured := numOrZero row.total_injured
    total_homeless := numOrZero row.total_homeless
    total_deaths := numOrZero row.total_deaths }

/-- The whole points map of `loadData`: the i-th record consumes the
2i-th and (2i+1)-th draws of the ambient random stream. -/
def loadDataPoints (rand : ℕ → ℚ) (stories : List StoryRow) : List ScatterPoint :=
  stories.enum.map fun p => storyToPoint (rand (2 * p.1)) (rand (2 * p.1 + 1)) p.2

/-- One timeline mark (lines 48-53): constant x = STATUS_WIDTH / 2, y from
getYearPosition, the year as its label, and an empty event. -/
structure TimelineMark where
  x : ℚ
  y : JNum
  label : String
  event : String
deriving DecidableEq

/-- The timeline for-loop of lines 46-55:
`for (let year = 1400; year <= 2200; year += 100)`.  The loop runs exactly
9 iterations; the fuel argument only makes the recursion structural and any
fuel of at least 9 gives the same list. -/
def timelineLoop : ℕ → ℕ → List TimelineMark
  | 0, _ => []
  | fuel + 1, year =>
    if year ≤ 2200 then
      { x := STATUS_WIDTH / 2, y := getYearPosition (JNum.num (year : ℚ)),
        label := toString year, event := "" } :: timelineLoop fuel (year + 100)
    else []

/-- The timeline marks built by `loadData`. -/
def timelineMarks : List TimelineMark := timelineLoop 16 1400

/-! ## The star globe component (InteractiveStarGlobe) -/

/-- starConfig (lines 160-171). -/
structure StarConfig where
  maxMagnitude : ℚ
  minMagnitude : ℚ
  maxStarSize : ℚ
  minStarSize : ℚ
  baseStarSize : ℚ
  brightestThreshold : ℚ
  brightThreshold : ℚ
  brightestStarColor : ℕ
  brightStarColor : ℕ
  fadeFactor : ℚ

/-- The concrete starConfig object of lines 160-171. -/
def starConfig : StarConfig :=
  { maxMagnitude := 6.7
    minMagnitude := -1.5
    maxStarSize := 16.9
    minStarSize := 3.0
    baseStarSize := 4.5
    brightestThreshold := 4.5
    brightThreshold := 2.5
    brightestStarColor := 0xffffff
    brightStarColor := 0xe6f0ff
    fadeFactor := 2.0 }

/-- The star sphere radius (line 173). -/
def radius : ℚ := 200

/-- A THREE.Color: three float components. -/
structure JColor where
  r : JNum
  g : JNum
  b : JNum
deriving DecidableEq

/-- THREE.Color built from a hex literal: component = (hex >> shift & 255) / 255. -/
def JColor.ofHex (h : ℕ) : JColor :=
  { r := JNum.num ((h / 65536 % 256 : ℕ) : ℚ) / JNum.num 255
    g := JNum.num ((h / 256 % 256 : ℕ) : ℚ) / JNum.num 255
    b := JNum.num ((h % 256 : ℕ) : ℚ) / JNum.num 255 }

/-- THREE.Color.multiplyScalar. -/
def JColor.multiplyScalar (c : JColor) (s : JNum) : JColor :=
  ⟨c.r * s, c.g * s, c.b * s⟩

/-- THREE MathUtils.clamp: Math.max(lo, Math.min(hi, x)). -/
def jclamp (x lo hi : JNum) : JNum := JNum.max lo (JNum.min hi x)

/-- THREE.Color.getHex: each component scaled to 0..255, clamped, rounded and
packed into the 16/8/0 bit positions. -/
def JColor.getHex (c : JColor) : JNum :=
  JNum.round (jclamp (c.r * JNum.num 255) (JNum.num 0) (JNum.num 255)) * JNum.num 65536 +
    JNum.round (jclamp (c.g * JNum.num 255) (JNum.num 0) (JNum.num 255)) * JNum.num 256 +
    JNum.round (jclamp (c.b * JNum.num 255) (JNum.num 0) (JNum.num 255))

/-- bvToColor (lines 176-195).  `rand` is the Math.random() draw of line 177.
The `bv` argument is accepted but never read, exactly as in the source. -/
def bvToColor (bv : JNum) (brightness : JNum) (rand : ℚ) : JNum :=
  let color : JColor :=
    if JNum.lt brightness (2.0 : JNum) then (JColor.ofHex 0xffffff).multiplyScalar (1.2 : JNum)
    else if rand < 0.4 then (JColor.ofHex 0xffd700).multiplyScalar (1.1 : JNum)
    else if rand < 0.7 then (JColor.ofHex 0x87ceeb).multiplyScalar (1.15 : JNum)
    else (JColor.ofHex 0xf8f8ff).multiplyScalar (1.1 : JNum)
  let fadeFactor := JNum.max (0.2 : JNum) ((1 : JNum) - brightness / JNum.num starConfig.maxMagnitude)
  (color.multiplyScalar (fadeFactor * (0.85 : JNum) + (0.25 : JNum))).getHex

/-- The unscaled star size of lines 211-214:
`max(minStarSize * (1.1 - brightness / maxMagnitude), maxStarSize * 0.75 ^ brightness)`. -/
def starSizeRaw (ops : FloatOps) (brightness : JNum) : JNum :=
  JNum.max
    (JNum.num starConfig.minStarSize * ((1.1 : JNum) - brightness / JNum.num starConfig.maxMagnitude))
    (JNum.num starConfig.maxStarSize * ops.jpow (0.75 : JNum) brightness)

/-- The star size after the dimming step of lines 215-217:
`if (brightness > 5.0) size *= 0.7`. -/
def starSize (ops : FloatOps) (brightness : JNum) : JNum :=
  if JNum.lt (5.0 : JNum) brightness then starSizeRaw ops brightness * (0.7 : JNum)
  else starSizeRaw ops brightness

/-- One parsed star record (lines 218-224). -/
structure StarRecord where
  id : ℕ
  x : JNum
  y : JNum
  z : JNum
  brightness : JNum
  color : JNum
  size : JNum
deriving DecidableEq

/-- The body of the map in `loadStars` (lines 204-225): destructure columns
5, 8, 9 and 11 of the comma-split row, parse them, convert RA/Dec (degrees)
to Cartesian coordinates on the sphere, and compute size and color.  `r` is
the Math.random() draw consumed by bvToColor for this row. -/
def starFromRow (ops : FloatOps) (r : ℚ) (index : ℕ) (row : List Char) : StarRecord :=
  let fields := splitOnChar ',' row
  let Vmag := fields.get? 5
  let RAdeg := fields.get? 8
  let DEdeg := fields.get? 9
  let B_V := fields.get? 11
  let brightness := jparseFloat Vmag
  let bv := jparseFloat B_V
  let x := JNum.num radius * ops.jcos (jparseFloat RAdeg * (JNum.num ops.pi / JNum.num 180)) *
             ops.jcos (jparseFloat DEdeg * (JNum.num ops.pi / JNum.num 180))
  let y := JNum.num radius * ops.jsin (jparseFloat DEdeg * (JNum.num ops.pi / JNum.num 180))
  let z := JNum.num radius * ops.jsin (jparseFloat RAdeg * (JNum.num ops.pi / JNum.num 180)) *
             ops.jcos (jparseFloat DEdeg * (JNum.num ops.pi / JNum.num 180))
  { id := index + 1
    x := x
    y := y
    z := z
    brightness := brightness
    color := bvToColor bv brightness r
    size := starSize ops brightness }

/-- The filter of lines 226-228: keep a star iff no coordinate is NaN and the
brightness lies within [minMagnitude, maxMagnitude].  (NaN fails both bound
checks, and no coordinate can be a non-NaN infinity: each is a product of the
finite radius with sine/cosine values.) -/
def starKeep (star : StarRecord) : Bool :=
  !star.x.isNan && !star.y.isNan && !star.z.isNan &&
    JNum.le star.brightness (JNum.num starConfig.maxMagnitude) &&
    JNum.le (JNum.num starConfig.minMagnitude) star.brightness

/-- The mapped (pre-filter) star list: drop the header row of the
newline-split text, then map `starFromRow` with the row index. -/
def rawStars (ops : FloatOps) (rand : ℕ → ℚ) (text : String) : List StarRecord :=
  ((splitOnChar '\n' text.toList).drop 1).enum.map fun p => starFromRow ops (rand p.1) p.1 p.2

/-- loadStars (lines 198-233).  `none` models a failed fetch or body read —
the catch of lines 230-232 returns [] — and `some text` a successful fetch of
the given body. -/
def loadStars (ops : FloatOps) (rand : ℕ → ℚ) (fetched : Option String) : List StarRecord :=
  match fetched with
  | none => []
  | some text => (rawStars ops rand text).filter starKeep

/-! ## The star globe effect: init, animation loop and cleanup -/

/-- What the `init` routine (lines 320-352) did by the time it returned. -/
structure InitOutcome where
  onStarsLoadedCalled : Bool
  starFieldCreated : Bool
  animationLoopStarted : Bool
deriving DecidableEq

/-- init (lines 320-352).  If the renderer ref is unset it signals loaded and
returns (lines 321-328); otherwise it loads the stars, builds the star field
when any survived, signals loaded in either branch (lines 331-339), and
starts the animation loop (lines 342-351).  `callbackPresent` models
`typeof onStarsLoaded === 'function'`. -/
def runInit (rendererAvailable callbackPresent : Bool) (stars : List StarRecord) : InitOutcome :=
  if !rendererAvailable then
    { onStarsLoadedCalled := callbackPresent
      starFieldCreated := false
      animationLoopStarted := false }
  else
    { onStarsLoadedCalled := callbackPresent
      starFieldCreated := decide (0 < stars.length)
      animationLoopStarted := true }

/-- The environment a single run of the component effect sees. -/
structure GlobeEnv where
  mountPresent : Bool
  rendererCreationFails : Bool
  controlsCreationFails : Bool
  fetched : Option String
  callbackPresent : Bool
  ops : FloatOps
  rand : ℕ → ℚ

/-- What one run of the component effect (lines 107-392) did. -/
structure EffectOutcome where
  fallbackCreated : Bool
  rendererRefSet : Bool
  controlsRefSet : Bool
  onStarsLoadedCalled : Bool
  starFieldCreated : Bool
  animationLoopStarted : Bool
  resizeListenerAdded : Bool
  cleanupRegistered : Bool
deriving DecidableEq

/-- The effect body (lines 107-392).  When renderer creation throws, the catch
(lines 132-141) appends a plain black fallback div and executes `return`, so
everything after it — `init()`, the resize listener, the cleanup registration —
never runs.  Otherwise controls creation is attempted (its failure only nulls
the controls ref), `init()` runs, and the listener and cleanup are
registered. -/
def runEffect (env : GlobeEnv) : EffectOutcome :=
  if !env.mountPresent then
    { fallbackCreated := false, rendererRefSet := false, controlsRefSet := false,
      onStarsLoadedCalled := false, starFieldCreated := false, animationLoopStarted := false,
      resizeListenerAdded := false, cleanupRegistered := false }
  else if env.rendererCreationFails then
    { fallbackCreated := true, rendererRefSet := false, controlsRefSet := false,
      onStarsLoadedCalled := false, starFieldCreated := false, animationLoopStarted := false,
      resizeListenerAdded := false, cleanupRegistered := false }
  else
    let stars := loadStars env.ops env.rand env.fetched
    let initOut := runInit true env.callbackPresent stars
    { fallbackCreated := false
      rendererRefSet := true
      controlsRefSet := !env.controlsCreationFails
      onStarsLoadedCalled := initOut.onStarsLoadedCalled
      starFieldCreated := initOut.starFieldCreated
      animationLoopStarted := initOut.animationLoopStarted
      resizeListenerAdded := true
      cleanupRegistered := true }

/-- The mutable lifecycle state of one mounted star globe: the pending
animation frame, the registered listener, the refs holding the THREE handles,
the disposal flags, and counters of observable frame work. -/
structure GlobeLifecycle where
  rafPending : Bool
  resizeListenerAttached : Bool
  domElementAttached : Bool
  sceneRef : Bool
  cameraRef : Bool
  rendererRef : Bool
  controlsRef : Bool
  starPointsRef : Bool
  rendererDisposed : Bool
  controlsDisposed : Bool
  geometryDisposed : Bool
  controlsUpdates : ℕ
  rendersDone : ℕ
deriving DecidableEq

/-- The state after a successful init with stars: animation loop running,
listener attached, every ref populated, nothing disposed. -/
def populatedState : GlobeLifecycle :=
  { rafPending := true, resizeListenerAttached := true, domElementAttached := true,
    sceneRef := true, cameraRef := true, rendererRef := true, controlsRef := true,
    starPointsRef := true, rendererDisposed := false, controlsDisposed := false,
    geometryDisposed := false, controlsUpdates := 0, rendersDone := 0 }

/-- One firing of `animate` (lines 342-351): when a frame callback is pending
it updates the controls if the controls ref is set, renders if renderer, scene
and camera refs are set, and unconditionally re-schedules itself via
requestAnimationFrame — so `rafPending` stays true. -/
def animateFrame (s : GlobeLifecycle) : GlobeLifecycle :=
  if s.rafPending then
    { s with
      controlsUpdates := s.controlsUpdates + (if s.controlsRef then 1 else 0),
      rendersDone := s.rendersDone + (if s.rendererRef && s.sceneRef && s.cameraRef then 1 else 0),
      rafPending := true }
  else s

/-- The effect cleanup (lines 368-391): remove the resize listener, detach the
renderer's DOM element if present, dispose the renderer and the controls if
their refs are set.  It never calls cancelAnimationFrame, never clears any
ref, and never disposes the star-points geometry or material. -/
def cleanupEffect (s : GlobeLifecycle) : GlobeLifecycle :=
  { s with
    resizeListenerAttached := false,
    domElementAttached := if s.rendererRef then false else s.domElementAttached,
    rendererDisposed := s.rendererRef || s.rendererDisposed,
    controlsDisposed := s.controlsRef || s.controlsDisposed }

/-! ## Concrete fixtures used by the claims -/

/-- A story row with a given start_year and every other source field absent. -/
def rowWithYear (sy : JVal) : StoryRow :=
  { start_year := sy, disaster_type := "", country := "", summary := "",
    total_affected := JVal.vundef, total_injured := JVal.vundef,
    total_homeless := JVal.vundef, total_deaths := JVal.vundef }

/-- Header plus two data rows: one valid, one with a malformed magnitude. -/
def csvThreeLines : String :=
  "c0,c1,c2,c3,c4,Vmag,c6,c7,RAdeg,DEdeg,c10,B-V\n,,,,,5.0,,,10.0,20.0,,0.5\n,,,,,bad,,,10.0,20.0,,0.5"

/-- Header plus one row whose brightness 7.0 exceeds maxMagnitude = 6.7. -/
def csvBrightSeven : String :=
  "c0,c1,c2,c3,c4,Vmag,c6,c7,RAdeg,DEdeg,c10,B-V\n,,,,,7.0,,,10.0,20.0,,0.5"

/-- Header plus one row whose right ascension is not numeric. -/
def csvBadRA : String :=
  "c0,c1,c2,c3,c4,Vmag,c6,c7,RAdeg,DEdeg,c10,B-V\n,,,,,5.0,,,xyz,20.0,,0.5"

/-- A concrete FloatOps instantiation used by witnesses; the claims never
depend on the values of the transcendental functions. -/
def constOps : FloatOps := { pi := 0, cos := fun _ => 0, sin := fun _ => 0, pow := fun _ _ => 1 }

/-! ## Helper lemmas -/

/-- Unfolding getYearPosition on a non-NaN year. -/
theorem getYearPosition_num (y : ℚ) :
    getYearPosition (JNum.num y) = JNum.num ((2200 - y) / (2200 - 1400) * 12500) := rfl

/-- Unfolding the JS `<` on non-NaN numbers. -/
theorem jnum_lt_num (a b : ℚ) : JNum.lt (JNum.num a) (JNum.num b) = decide (a < b) := rfl

/-- The linear form of the year-position formula. -/
theorem yearPos_linear (y : ℚ) : (2200 - y) / (2200 - 1400) * 12500 = 34375 - 125 / 8 * y := by
  ring

/-! ## Claim theorems -/

/-- C6: `getYearPosition` computes ((2200 - year) / (2200 - 1400)) * 12500;
on [1400, 2200] it is strictly decreasing, getYearPosition 1400 = 12500 and
getYearPosition 2200 = 0; and there is no clamping: years below 1400 map
above 12500 and years above 2200 map below 0. -/
theorem c6_year_position_linear :
    (∀ y : ℚ, getYearPosition (JNum.num y) = JNum.num ((2200 - y) / (2200 - 1400) * 12500)) ∧
    getYearPosition (JNum.num 1400) = JNum.num 12500 ∧
    getYearPosition (JNum.num 2200) = JNum.num 0 ∧
    (∀ y1 y2 : ℚ, 1400 ≤ y1 → y1 < y2 → y2 ≤ 2200 →
      JNum.lt (getYearPosition (JNum.num y2)) (getYearPosition (JNum.num y1)) = true) ∧
    (∀ y : ℚ, y < 1400 → JNum.lt (JNum.num 12500) (getYearPosition (JNum.num y)) = true) ∧
    (∀ y : ℚ, 2200 < y → JNum.lt (getYearPosition (JNum.num y)) (JNum.num 0) = true) := by
  refine ⟨fun y => rfl, by decide, by decide, ?_, ?_, ?_⟩
  · intro y1 y2 _ h2 _
    rw [getYearPosition_num, getYearPosition_num, jnum_lt_num, decide_eq_true_iff,
      yearPos_linear, yearPos_linear]
    linarith
  · intro y h
    rw [getYearPosition_num, jnum_lt_num, decide_eq_true_iff, yearPos_linear]
    linarith
  · intro y h
    rw [getYearPosition_num, jnum_lt_num, decide_eq_true_iff, yearPos_linear]
    linarith

/-- C6 witness: concrete instances of the quantified parts of
`c6_year_position_linear`. -/
theorem c6_year_position_linear_witness :
    JNum.lt (getYearPosition (JNum.num 1500)) (getYearPosition (JNum.num 1400)) = true ∧
    JNum.lt (JNum.num 12500) (getYearPosition (JNum.num 1000)) = true ∧
    JNum.lt (getYearPosition (JNum.num 2300)) (JNum.num 0) = true :=
  ⟨c6_year_position_linear.2.2.2.1 1400 1500 (by norm_num) (by norm_num) (by norm_num),
   c6_year_position_linear.2.2.2.2.1 1000 (by norm_num),
   c6_year_position_linear.2.2.2.2.2 2300 (by norm_num)⟩

/-- C7: the timeline loop over [1400, 2200] step 100 yields exactly 9 marks,
labelled "1400", "1500", ..., "2200" in order, each at the constant horizontal
position STATUS_WIDTH / 2 = 800 and at vertical position getYearPosition of
its year; fuel 9 already saturates the loop. -/
theorem c7_timeline_marks :
    timelineMarks.length = 9 ∧
    timelineMarks.map (fun m => m.label) =
      ["1400", "1500", "1600", "1700", "1800", "1900", "2000", "2100", "2200"] ∧
    timelineMarks.map (fun m => m.x) = List.replicate 9 800 ∧
    timelineMarks.map (fun m => m.y) =
      [1400, 1500, 1600, 1700, 1800, 1900, 2000, 2100, 2200].map
        (fun y => getYearPosition (JNum.num y)) ∧
    timelineLoop 9 1400 = timelineMarks := by
  refine ⟨by decide, by decide, by decide, by decide, by decide⟩

/-- C2 counterexample: a record whose start_year is the truthy but unparsable
string "abc" gets vertical position NaN — a JS number — not null, refuting
"if integer parsing fails, the point's vertical position is null". -/
theorem c2_parse_failure_gives_nan :
    (storyToPoint 0 0 (rowWithYear (JVal.vstr "abc"))).y = some JNum.nan ∧
    (storyToPoint 0 0 (rowWithYear (JVal.vstr "abc"))).y ≠ none := by
  refine ⟨by decide, by decide⟩

/-- C2 (amended): if start_year is falsy (null, absent, 0, "", NaN) the
vertical position is null; if start_year is truthy and parseInt succeeds on
the trimmed String() rendering, the vertical position is getYearPosition of
the parsed integer — e.g. "1850 " maps to getYearPosition 1850; but if
start_year is truthy and parseInt fails, the vertical position is NaN, not
null. -/
theorem c2_vertical_position_of_year :
    (∀ row : StoryRow, ∀ r1 r2 : ℚ, row.start_year.truthy = false →
      (storyToPoint r1 r2 row).y = none) ∧
    (∀ row : StoryRow, ∀ r1 r2 q : ℚ, row.start_year.truthy = true →
      jparseInt (jsTrim row.start_year.toJsString) = JNum.num q →
      (storyToPoint r1 r2 row).y = some (getYearPosition (JNum.num q))) ∧
    (∀ row : StoryRow, ∀ r1 r2 : ℚ, row.start_year.truthy = true →
      jparseInt (jsTrim row.start_year.toJsString) = JNum.nan →
      (storyToPoint r1 r2 row).y = some JNum.nan) ∧
    (∀ r1 r2 : ℚ, (storyToPoint r1 r2 (rowWithYear (JVal.vstr "1850 "))).y =
      some (getYearPosition (JNum.num 1850))) := by
  refine ⟨?_, ?_, ?_, ?_⟩
  · intro row r1 r2 h
    simp [storyToPoint, h]
  · intro row r1 r2 q h hp
    simp [storyToPoint, h, hp]
  · intro row r1 r2 h hp
    simp [storyToPoint, h, hp]
    rfl
  · intro r1 r2
    have h : (rowWithYear (JVal.vstr "1850 ")).start_year.truthy = true := by decide
    have hp : jparseInt (jsTrim (rowWithYear (JVal.vstr "1850 ")).start_year.toJsString) =
        JNum.num 1850 := by decide
    simp [storyToPoint, h, hp]

/-- C2 witness: the parsing branch of `c2_vertical_position_of_year` applied
to a concrete record with start_year "1850 ". -/
theorem c2_vertical_position_of_year_witness :
    (storyToPoint 0 0 (rowWithYear (JVal.vstr "1850 "))).y =
      some (getYearPosition (JNum.num 1850)) :=
  c2_vertical_position_of_year.2.1 (rowWithYear (JVal.vstr "1850 ")) 0 0 1850
    (by decide) (by decide)

/-- The behaviour of one numeric field coercion: zero when the source is
falsy, otherwise the JS Number() conversion — the numeric value when the
source is numeric, NaN when it is not. -/
def coercionSpec (src : JVal) (out : JNum) : Prop :=
  (src.truthy = false → out = JNum.num 0) ∧
  (src.truthy = true → out = src.jsNumber) ∧
  (∀ q : ℚ, src.truthy = true → src.jsNumber = JNum.num q → out = JNum.num q) ∧
  (src.truthy = true → src.jsNumber = JNum.nan → out = JNum.nan)

/-- C3 counterexample: a record whose total_deaths is the truthy, non-numeric
string "abc" yields total_deaths = NaN, not 0, refuting "equals zero whenever
the corresponding source value is absent or non-numeric". -/
theorem c3_nonnumeric_gives_nan :
    (storyToPoint 0 0
      { rowWithYear JVal.vnull with total_deaths := JVal.vstr "abc" }).total_deaths =
      JNum.nan ∧
    JNum.nan ≠ JNum.num 0 := by
  refine ⟨by decide, by decide⟩

/-- C3 (amended): each numeric output field (total_affected, total_injured,
total_homeless, total_deaths) is 0 when its source value is falsy (absent,
null, 0, "", NaN), and is Number(source) when the source is truthy: the
source's numeric value when numeric, NaN — not 0 — when non-numeric.  In
particular a record missing total_deaths yields total_deaths = 0. -/
theorem c3_numeric_field_coercion :
    (∀ row : StoryRow, ∀ r1 r2 : ℚ,
      coercionSpec row.total_affected ((storyToPoint r1 r2 row).total_affected) ∧
      coercionSpec row.total_injured ((storyToPoint r1 r2 row).total_injured) ∧
      coercionSpec row.total_homeless ((storyToPoint r1 r2 row).total_homeless) ∧
      coercionSpec row.total_deaths ((storyToPoint r1 r2 row).total_deaths)) ∧
    (∀ r1 r2 : ℚ, (storyToPoint r1 r2 (rowWithYear JVal.vnull)).total_deaths = JNum.num 0) := by
  have core : ∀ v : JVal, coercionSpec v (numOrZero v) := by
    intro v
    refine ⟨fun h => ?_, fun h => ?_, fun q h hq => ?_, fun h hq => ?_⟩
    · simp [numOrZero, h]
    · simp [numOrZero, h]
    · simp [numOrZero, h, hq]
    · simp [numOrZero, h, hq]
  exact ⟨fun row r1 r2 => ⟨core _, core _, core _, core _⟩,
    fun r1 r2 => (core JVal.vundef).1 (by decide)⟩

/-- C3 witness: the falsy branch of `c3_numeric_field_coercion` applied to a
record with total_deaths absent. -/
theorem c3_numeric_field_coercion_witness :
    (storyToPoint 0 0 (rowWithYear JVal.vnull)).total_deaths = JNum.num 0 :=
  ((c3_numeric_field_coercion.1 (rowWithYear JVal.vnull) 0 0).2.2.2).1 (by decide)

/-- C4: `loadStars` keeps exactly the mapped rows that pass `starKeep` — no
NaN coordinate and brightness within [-1.5, 6.7] inclusive — for any
behaviour of the math library and the random stream.  Concretely: the row
with brightness 7.0 is dropped, the row with non-numeric right ascension is
dropped, and the header-plus-two-rows CSV (one valid row, one with a
malformed magnitude) yields exactly one StarRecord, the one with id 1. -/
theorem c4_star_filtering :
    (∀ ops rand text,
      loadStars ops rand (some text) = (rawStars ops rand text).filter starKeep) ∧
    (∀ star : StarRecord, starKeep star =
      (!star.x.isNan && !star.y.isNan && !star.z.isNan &&
        JNum.le star.brightness (JNum.num (6.7 : ℚ)) &&
        JNum.le (JNum.num (-1.5 : ℚ)) star.brightness)) ∧
    (∀ ops rand text, ∀ star : StarRecord,
      star ∈ loadStars ops rand (some text) ↔
        star ∈ rawStars ops rand text ∧ starKeep star = true) ∧
    (∀ ops rand, (loadStars ops rand (some csvThreeLines)).map (fun s => s.id) = [1]) ∧
    (∀ ops rand, (loadStars ops rand (some csvThreeLines)).length = 1) ∧
    (∀ ops rand, loadStars ops rand (some csvBrightSeven) = []) ∧
    (∀ ops rand, loadStars ops rand (some csvBadRA) = []) := by
  refine ⟨fun _ _ _ => rfl, fun _ => rfl, ?_, fun _ _ => rfl, fun _ _ => rfl,
    fun _ _ => rfl, fun _ _ => rfl⟩
  intro ops rand text star
  simp [loadStars, List.mem_filter]

/-- C8: the computed star size is the unadjusted formula
max(minStarSize * (1.1 - brightness / maxMagnitude), maxStarSize * 0.75 ^ brightness)
scaled by 0.7 exactly when brightness > 5.0; brightness 0 yields the
deterministic size 16.9 for any pow with pow(0.75, 0) = 1, and brightness 5.5
yields the unadjusted value times 0.7. -/
theorem c8_star_size_formula :
    (∀ ops : FloatOps, ∀ b : JNum, starSize ops b =
      (if JNum.lt (5.0 : JNum) b then starSizeRaw ops b * (0.7 : JNum)
       else starSizeRaw ops b)) ∧
    (∀ ops : FloatOps, ∀ b : JNum, starSizeRaw ops b =
      JNum.max (JNum.num (3.0 : ℚ) * ((1.1 : JNum) - b / JNum.num (6.7 : ℚ)))
        (JNum.num (16.9 : ℚ) * ops.jpow (0.75 : JNum) b)) ∧
    (∀ ops : FloatOps, ops.pow (0.75 : ℚ) (0 : ℚ) = 1 →
      starSize ops (JNum.num 0) = JNum.num (16.9 : ℚ)) ∧
    (∀ ops : FloatOps,
      starSize ops (JNum.num (5.5 : ℚ)) =
        starSizeRaw ops (JNum.num (5.5 : ℚ)) * (0.7 : JNum)) := by
  refine ⟨fun _ _ => rfl, fun _ _ => rfl, ?_, ?_⟩
  · intro ops h
    show (if JNum.lt (5.0 : JNum) (JNum.num 0) then starSizeRaw ops (JNum.num 0) * (0.7 : JNum)
          else starSizeRaw ops (JNum.num 0)) = JNum.num (16.9 : ℚ)
    rw [show JNum.lt (5.0 : JNum) (JNum.num 0) = false from by decide, if_neg (by simp)]
    show JNum.max
        (JNum.num (3.0 : ℚ) * ((1.1 : JNum) - JNum.num 0 / JNum.num (6.7 : ℚ)))
        (JNum.num (16.9 : ℚ) * ops.jpow (0.75 : JNum) (JNum.num 0)) = JNum.num (16.9 : ℚ)
    show JNum.num (Max.max ((3.0 : ℚ) * ((1.1 : ℚ) - (0 : ℚ) / (6.7 : ℚ)))
        ((16.9 : ℚ) * ops.pow (0.75 : ℚ) (0 : ℚ))) = JNum.num (16.9 : ℚ)
    rw [h]
    norm_num
  · intro ops
    show (if JNum.lt (5.0 : JNum) (JNum.num (5.5 : ℚ))
          then starSizeRaw ops (JNum.num (5.5 : ℚ)) * (0.7 : JNum)
          else starSizeRaw ops (JNum.num (5.5 : ℚ))) =
        starSizeRaw ops (JNum.num (5.5 : ℚ)) * (0.7 : JNum)
    rw [show JNum.lt (5.0 : JNum) (JNum.num (5.5 : ℚ)) = true from by decide]
    simp

/-- C8 witness: the brightness-0 branch of `c8_star_size_formula` at the
constant-valued math library. -/
theorem c8_star_size_formula_witness :
    starSize constOps (JNum.num 0) = JNum.num (16.9 : ℚ) :=
  c8_star_size_formula.2.2.1 constOps rfl

/-- C10: `bvToColor` never reads its B-V argument: for any two B-V values and
the same brightness and the same random draw it returns the same colour. -/
theorem c10_color_independent_of_bv :
    ∀ bv1 bv2 brightness : JNum, ∀ rand : ℚ,
      bvToColor bv1 brightness rand = bvToColor bv2 brightness rand :=
  fun _ _ _ _ => rfl

/-- C9: `loadStars` returns the empty collection when the fetch or body read
fails, and `init`, whenever it runs with the callback provided, invokes
onStarsLoaded in every outcome — renderer missing, zero stars, or stars
present; consequently a mounted effect whose renderer creation succeeded
always calls onStarsLoaded. -/
theorem c9_loaded_signal_on_every_outcome :
    (∀ ops rand, loadStars ops rand none = []) ∧
    (∀ ra : Bool, ∀ stars : List StarRecord,
      (runInit ra true stars).onStarsLoadedCalled = true) ∧
    (∀ env : GlobeEnv, env.mountPresent = true → env.rendererCreationFails = false →
      env.callbackPresent = true → (runEffect env).onStarsLoadedCalled = true) := by
  refine ⟨fun _ _ => rfl, fun ra stars => ?_, fun env h1 h2 h3 => ?_⟩
  · cases ra <;> rfl
  · obtain ⟨mp, rf, cf, fe, cb, ops, rand⟩ := env
    simp only at h1 h2 h3
    subst h1; subst h2; subst h3
    rfl

/-- C9 witness: `c9_loaded_signal_on_every_outcome` at a concrete mounted
environment whose fetch fails (zero stars). -/
theorem c9_loaded_signal_on_every_outcome_witness :
    (runEffect { mountPresent := true, rendererCreationFails := false,
                 controlsCreationFails := false, fetched := none,
                 callbackPresent := true, ops := constOps,
                 rand := fun _ => 0 }).onStarsLoadedCalled = true :=
  c9_loaded_signal_on_every_outcome.2.2 _ rfl rfl rfl

/-- C1: when renderer creation fails, the effect creates the fallback
placeholder but executes `return` before `init` ever runs, so onStarsLoaded
is NOT invoked and the caller's loading state is never cleared — the claim's
"signals loaded immediately" half fails on the code.  The init branch that
would signal loaded for a missing renderer (lines 321-328) exists but is
unreachable, since init only runs when renderer creation succeeded. -/
theorem c1_renderer_failure_skips_loaded_signal :
    (∀ cf : Bool, ∀ fetched : Option String, ∀ ops : FloatOps, ∀ rand : ℕ → ℚ,
      runEffect { mountPresent := true, rendererCreationFails := true,
                  controlsCreationFails := cf, fetched := fetched,
                  callbackPresent := true, ops := ops, rand := rand } =
        { fallbackCreated := true, rendererRefSet := false, controlsRefSet := false,
          onStarsLoadedCalled := false, starFieldCreated := false,
          animationLoopStarted := false, resizeListenerAdded := false,
          cleanupRegistered := false }) ∧
    (∀ stars : List StarRecord, (runInit false true stars).onStarsLoadedCalled = true) :=
  ⟨fun _ _ _ _ => rfl, fun _ => rfl⟩

/-- C5 counterexample: in the state immediately after the cleanup has run, the
scheduled animation-frame callback is still pending and fires again — it even
renders once more through the still-set (though disposed) renderer ref — and
the renderer, controls and star-points handles all remain reachable from the
component's refs, with the geometry never disposed.  This refutes "no
per-frame animation callback fires again and no GPU resource handle remains
reachable". -/
theorem c5_frame_fires_after_cleanup :
    (cleanupEffect populatedState).rafPending = true ∧
    (animateFrame (cleanupEffect populatedState)).rendersDone =
      (cleanupEffect populatedState).rendersDone + 1 ∧
    (animateFrame (cleanupEffect populatedState)).controlsUpdates =
      (cleanupEffect populatedState).controlsUpdates + 1 ∧
    (cleanupEffect populatedState).rendererRef = true ∧
    (cleanupEffect populatedState).controlsRef = true ∧
    (cleanupEffect populatedState).starPointsRef = true ∧
    (cleanupEffect populatedState).geometryDisposed = false := by
  refine ⟨by decide, by decide, by decide, by decide, by decide, by decide, by decide⟩

/-- C5 (amended): the cleanup removes the resize listener and disposes the
renderer and controls when their refs are set, but it never cancels the
pending animation frame, never clears any ref (renderer, controls, star
points all stay reachable), and never disposes the star geometry; after
cleanup of the populated state the frame callback still fires and
re-schedules itself. -/
theorem c5_cleanup_behaviour :
    (∀ s : GlobeLifecycle,
      (cleanupEffect s).resizeListenerAttached = false ∧
      (cleanupEffect s).domElementAttached =
        (if s.rendererRef then false else s.domElementAttached) ∧
      (cleanupEffect s).rendererDisposed = (s.rendererRef || s.rendererDisposed) ∧
      (cleanupEffect s).controlsDisposed = (s.controlsRef || s.controlsDisposed) ∧
      (cleanupEffect s).rafPending = s.rafPending ∧
      (cleanupEffect s).rendererRef = s.rendererRef ∧
      (cleanupEffect s).controlsRef = s.controlsRef ∧
      (cleanupEffect s).starPointsRef = s.starPointsRef ∧
      (cleanupEffect s).geometryDisposed = s.geometryDisposed) ∧
    (cleanupEffect populatedState).domElementAttached = false ∧
    (animateFrame (cleanupEffect populatedState)).rendersDone = 1 ∧
    (animateFrame (cleanupEffect populatedState)).rafPending = true := by
  refine ⟨fun s => ⟨rfl, rfl, rfl, rfl, rfl, rfl, rfl, rfl, rfl⟩, by decide, by decide, by decide⟩
